import Mathlib

/-!
# StarryDex core — verification of the snapshot lifecycle and query layer

Shallow embedding (in Lean 4) of the core of the `starrydex` repository
(`src/core.rs`, entities in `src/entities/starry_pokemon.rs`, helpers in
`src/assetgen/src/main.rs` / `src/utils.rs`).  Rust `i64` values are modelled
as `Int` (ids, weights and stats are small in practice; where a parse of an
`i64` from text matters we check the `i64` range explicitly), `usize` as `Nat`
(Rust `saturating_sub` coincides with `Nat` subtraction), `Vec`/iteration
order as `List`, `BTreeMap<i64, _>` as an association list in key order, and
fallible operations as `Option`/`Except`.
-/

namespace StarryDex

/-! ## Data model (src/entities/starry_pokemon.rs) -/

/-- `StarryPokemonStats` — the six base stats. -/
structure StarryPokemonStats where
  hp : Int
  attack : Int
  defense : Int
  sp_attack : Int
  sp_defense : Int
  speed : Int
deriving DecidableEq, Repr

/-- `StarryPokemonData` — core Pokémon data. -/
structure StarryPokemonData where
  id : Int
  name : String
  weight : Int
  height : Int
  types : List String
  abilities : List String
  stats : StarryPokemonStats
deriving DecidableEq, Repr

/-- `StarryPokemonGeneration` — the ten generation tags (src enum, `Unknown` default). -/
inductive StarryPokemonGeneration where
  | Unknown
  | One
  | Two
  | Three
  | Four
  | Five
  | Six
  | Seven
  | Eight
  | Nine
deriving DecidableEq, Repr

/-- `StarryEvolutionData` — one flattened evolution node. -/
structure StarryEvolutionData where
  id : Int
  name : String
  sprite_path : Option String
  needs_to_evolve : Option String
deriving DecidableEq, Repr

/-- `StarryPokemonSpecie` — species info attached to a record. -/
structure StarryPokemonSpecie where
  evolution_chain_url : Option String
  flavor_text : Option String
  generation : StarryPokemonGeneration
  evolution_data : List StarryEvolutionData
deriving DecidableEq, Repr

/-- `StarryPokemonEncounterInfo` — per-location encounter summary. -/
structure StarryPokemonEncounterInfo where
  city : String
  games_method : List String
deriving DecidableEq, Repr

/-- `StarryPokemon` — the full nested record stored in the snapshot. -/
structure StarryPokemon where
  pokemon : StarryPokemonData
  specie : Option StarryPokemonSpecie
  sprite_path : Option String
  encounter_info : Option (List StarryPokemonEncounterInfo)
deriving DecidableEq, Repr

/-- `PokemonInfo` — the lightweight summary record returned by list queries. -/
structure PokemonInfo where
  id : Int
  name : String
  sprite_path : Option String
deriving DecidableEq, Repr

/-! ## String helpers (src/assetgen/src/main.rs `capitalize_string`)

Rust `char::to_uppercase` on the ASCII names this app handles coincides with
`Char.toUpper`. -/

/-- Rust `str::split(sep)` on a character list: splits at every character
satisfying `p`, keeping empty pieces (so the empty input yields one empty
piece, exactly as in Rust). -/
def splitBy (p : Char → Bool) : List Char → List (List Char)
  | [] => [[]]
  | c :: rest =>
    match splitBy p rest with
    | [] => [[]]
    | w :: ws => if p c then [] :: w :: ws else (c :: w) :: ws

/-- Rust `str::to_lowercase` (ASCII range — the names this app feeds it are
ASCII). -/
def rustToLowercase (s : String) : String :=
  String.mk (s.toList.map Char.toLower)

/-- Capitalize one `-`-separated word: upper-case its first character. -/
def capitalize_word (w : List Char) : String :=
  match w with
  | [] => ""
  | c :: cs => String.mk (c.toUpper :: cs)

/-- `capitalize_string`: split on `-`, capitalize each word, join with spaces. -/
def capitalize_string (input : String) : String :=
  String.intercalate " " ((splitBy (fun c => c = '-') input.toList).map capitalize_word)

/-! ## Rustemon model fragments (third-party input shapes used by core.rs) -/

/-- A named API resource: `{ name, url }`. -/
structure NamedApiResource where
  name : String
  url : String
deriving DecidableEq, Repr

/-- An unnamed API resource: `{ url }` (the species' `evolution_chain` field). -/
structure APIResource where
  url : String
deriving DecidableEq, Repr

/-- `rustemon::model::evolution::EvolutionDetail` — all fields of the remote
record; `extract_evolution_requirement` consults only a subset, which the
theorems below make explicit. -/
structure EvolutionDetail where
  item : Option NamedApiResource
  trigger : Option NamedApiResource
  gender : Option Int
  held_item : Option NamedApiResource
  known_move : Option NamedApiResource
  known_move_type : Option NamedApiResource
  location : Option NamedApiResource
  min_affection : Option Int
  min_beauty : Option Int
  min_happiness : Option Int
  min_level : Option Int
  needs_overworld_rain : Bool
  party_species : Option NamedApiResource
  party_type : Option NamedApiResource
  relative_physical_stats : Option Int
  time_of_day : String
  trade_species : Option NamedApiResource
  turn_upside_down : Bool
deriving DecidableEq, Repr

/-- An `EvolutionDetail` with every optional field absent, the time-of-day
string empty and the booleans false; concrete test details below are built
from it by overriding single fields. -/
def emptyDetail : EvolutionDetail :=
  { item := none, trigger := none, gender := none, held_item := none
    known_move := none, known_move_type := none, location := none
    min_affection := none, min_beauty := none, min_happiness := none
    min_level := none, needs_overworld_rain := false, party_species := none
    party_type := none, relative_physical_stats := none, time_of_day := ""
    trade_species := none, turn_upside_down := false }

/-! ## Evolution requirement extraction (src/core.rs lines 730-788) -/

/-- `extract_evolution_requirement`: consult only the first detail record,
choosing the requirement string by strict priority. -/
def extract_evolution_requirement (evolution_details : List EvolutionDetail) :
    Option String :=
  match evolution_details with
  | [] => none
  | detail :: _ =>
    match detail.min_level with
    | some min_level => some ("Level " ++ toString min_level)
    | none =>
    match detail.item with
    | some item => some (capitalize_string item.name)
    | none =>
    match detail.held_item with
    | some held_item => some ("Holding " ++ capitalize_string held_item.name)
    | none =>
    match detail.min_happiness with
    | some min_happiness => some ("Happiness " ++ toString min_happiness)
    | none =>
    if detail.time_of_day ≠ "" then
      some ("During " ++ capitalize_string detail.time_of_day)
    else
    match detail.location with
    | some location => some ("At " ++ capitalize_string location.name)
    | none =>
    match detail.known_move with
    | some known_move => some ("Knowing " ++ capitalize_string known_move.name)
    | none =>
    match detail.relative_physical_stats with
    | some 1 => some "Attack > Defense"
    | some (-1) => some "Defense > Attack"
    | some 0 => some "Attack = Defense"
    | _ => none

/-! ## URL id parsing (src/core.rs lines 479-489 and 699-707)

Rust `str::parse::<i64>` accepts an optional leading sign followed by one or
more ASCII digits and fails on overflow; `trim_end_matches('/')` strips every
trailing slash; `split('/')` keeps empty pieces and `next_back()` takes the
last one. -/

/-- Numeric value of a run of ASCII digits. -/
def digitsToNat (ds : List Char) : Nat :=
  ds.foldl (fun acc c => acc * 10 + (c.toNat - '0'.toNat)) 0

/-- Model of Rust `str::parse::<i64>`: optional sign, one or more ASCII
digits, in-range for `i64`. -/
def parseI64 (s : String) : Option Int :=
  let signDigits : Int × List Char :=
    match s.toList with
    | '+' :: rest => (1, rest)
    | '-' :: rest => (-1, rest)
    | rest => (1, rest)
  if signDigits.2 ≠ [] ∧ signDigits.2.all Char.isDigit then
    let v : Int := signDigits.1 * (digitsToNat signDigits.2 : Int)
    if -(2 ^ 63) ≤ v ∧ v ≤ 2 ^ 63 - 1 then some v else none
  else none

/-- Model of `trim_end_matches('/')`. -/
def trimEndSlashes (s : String) : String :=
  String.mk ((s.toList.reverse.dropWhile (fun c => c = '/')).reverse)

/-- `url.trim_end_matches('/').split('/').next_back()`. -/
def url_trailing_segment (url : String) : Option String :=
  ((splitBy (fun c => c = '/') (trimEndSlashes url).toList).map String.mk).getLast?

/-! ## Evolution chain flattening (src/core.rs lines 687-727) -/

/-- `rustemon::model::evolution::ChainLink` — the recursive evolution tree. -/
inductive ChainLink where
  | mk (is_baby : Bool) (species : NamedApiResource)
      (evolution_details : List EvolutionDetail) (evolves_to : List ChainLink)

/-- The `species` field of a chain link. -/
def ChainLink.species : ChainLink → NamedApiResource
  | .mk _ s _ _ => s

/-- The `evolution_details` field of a chain link. -/
def ChainLink.evolution_details : ChainLink → List EvolutionDetail
  | .mk _ _ d _ => d

/-- The `evolves_to` field of a chain link. -/
def ChainLink.evolves_to : ChainLink → List ChainLink
  | .mk _ _ _ e => e

/-- `evolved_data.first_mut()` update: overwrite the requirement of the first
node of an evolved subtree (src/core.rs lines 717-721). -/
def set_first_requirement (req : Option String) :
    List StarryEvolutionData → List StarryEvolutionData
  | [] => []
  | first :: rest => { first with needs_to_evolve := req } :: rest

/-- The base node pushed for a chain link (src/core.rs lines 693-711): id
parsed from the species URL's trailing segment (`0` on failure), capitalized
name, sprite path under the resources directory, no requirement.
`resources_path` is the path as a list of segments; `PathBuf::to_str` always
succeeds in this model. -/
def chain_base_node (species : NamedApiResource) (resources_path : List String) :
    StarryEvolutionData :=
  { id := ((url_trailing_segment species.url).bind parseI64).getD 0
    name := capitalize_string species.name
    sprite_path :=
      some (String.intercalate "/"
        (resources_path ++ [species.name, species.name ++ "_front.png"]))
    needs_to_evolve := none }

mutual

/-- `extract_evolution_data_from_chain_link`: base node first, then the
flattened evolved subtrees in branch order, each subtree's first node carrying
the requirement computed from that edge's detail list. -/
def extract_evolution_data_from_chain_link (chain_link : ChainLink)
    (resources_path : List String) : List StarryEvolutionData :=
  match chain_link with
  | .mk _ species _ evolves_to =>
    chain_base_node species resources_path ::
      extract_from_children evolves_to resources_path

/-- The `for evolution in &chain_link.evolves_to` loop body. -/
def extract_from_children (children : List ChainLink)
    (resources_path : List String) : List StarryEvolutionData :=
  match children with
  | [] => []
  | evolution :: rest =>
    set_first_requirement (extract_evolution_requirement evolution.evolution_details)
        (extract_evolution_data_from_chain_link evolution resources_path)
      ++ extract_from_children rest resources_path

end

mutual

/-- Number of nodes of an evolution tree. -/
def ChainLink.nodeCount : ChainLink → Nat
  | .mk _ _ _ children => 1 + nodeCountList children

/-- Total node count of a list of evolution trees. -/
def nodeCountList : List ChainLink → Nat
  | [] => 0
  | c :: rest => c.nodeCount + nodeCountList rest

end

mutual

/-- Species names of an evolution tree in depth-first order, base first. -/
def ChainLink.dfsSpeciesNames : ChainLink → List String
  | .mk _ species _ children => species.name :: dfsSpeciesNamesList children

/-- Depth-first species names of a list of evolution trees, in branch order. -/
def dfsSpeciesNamesList : List ChainLink → List String
  | [] => []
  | c :: rest => c.dfsSpeciesNames ++ dfsSpeciesNamesList rest

end

/-! ## Query layer (src/core.rs lines 128-300)

The loaded snapshot (`pokemon_data : Option<&ArchivedStarryPokemonMap>`) is
modelled as an optional association list in `BTreeMap` key order; `rkyv`
archived values read back their original contents, so the archived view is
the record itself.  A `HashSet<String>` argument is modelled as a `List
String` (only emptiness, membership and universal quantification over it are
used, none of which depend on iteration order). -/

/-- The snapshot: the keyed collection in `BTreeMap` iteration (key) order. -/
abbrev StarrySnapshot := List (Int × StarryPokemon)

/-- The summary record built by every list query (id = map key). -/
def mkPokemonInfo (entry : Int × StarryPokemon) : PokemonInfo :=
  { id := entry.1
    name := entry.2.pokemon.name
    sprite_path := entry.2.sprite_path }

/-- `BTreeMap::get` on the archived map (src/core.rs lines 129-133). -/
def btree_get (data : StarrySnapshot) (id : Int) : Option StarryPokemon :=
  (data.find? (fun entry => entry.1 == id)).map Prod.snd

/-- `get_pokemon_by_id`: point lookup; `None` when no snapshot is loaded or
the id is absent. -/
def get_pokemon_by_id (pokemon_data : Option StarrySnapshot) (id : Int) :
    Option StarryPokemon :=
  pokemon_data.bind (fun data => btree_get data id)

/-- `get_pokemon_list`: the full listing as summary records. -/
def get_pokemon_list (pokemon_data : Option StarrySnapshot) : List PokemonInfo :=
  match pokemon_data with
  | some data => data.map mkPokemonInfo
  | none => []

/-- `get_pokemon_page` (src/core.rs lines 163-188): clamp, then
`skip(offset).take(actual_limit)`.  `usize` subtraction `total_count -
adjusted_offset` cannot underflow because `adjusted_offset ≤ total_count - 1`;
`saturating_sub(1)` is `Nat` subtraction. -/
def get_pokemon_page (pokemon_data : Option StarrySnapshot)
    (offset limit : Nat) : List PokemonInfo :=
  match pokemon_data with
  | some data =>
    let total_count := data.length
    if total_count = 0 ∨ limit = 0 then []
    else
      let adjusted_offset := min offset (total_count - 1)
      let actual_limit := min limit (total_count - adjusted_offset)
      ((data.drop offset).take actual_limit).map mkPokemonInfo
  | none => []

/-- `filter_pokemon_inclusive` (src/core.rs lines 215-238): keep an entry when
the selection is empty or some of its types, lower-cased, is selected. -/
def filter_pokemon_inclusive (pokemon_data : Option StarrySnapshot)
    (selected_types : List String) : List PokemonInfo :=
  match pokemon_data with
  | some data =>
    (data.filter (fun entry =>
        selected_types.isEmpty ||
          entry.2.pokemon.types.any (fun t => selected_types.contains (rustToLowercase t)))).map
      mkPokemonInfo
  | none => []

/-- `filter_pokemon_exclusive` (src/core.rs lines 241-266): keep an entry when
the selection is empty or every selected type occurs among its types. -/
def filter_pokemon_exclusive (pokemon_data : Option StarrySnapshot)
    (selected_types : List String) : List PokemonInfo :=
  match pokemon_data with
  | some data =>
    (data.filter (fun entry =>
        selected_types.isEmpty ||
          selected_types.all (fun selected_type =>
            entry.2.pokemon.types.any (fun t => rustToLowercase t == selected_type)))).map
      mkPokemonInfo
  | none => []

/-- Modelled from the spec: the `fl!` localization lookup used by the
`Display` impl of `StarryPokemonGeneration` (the locale data is not under
src/); modelled as the identity on the localization key, which keeps the ten
generation labels distinct as any single locale does. -/
def fl_localize (key : String) : String := key

/-- The `Display` impl of `StarryPokemonGeneration`
(src/entities/starry_pokemon.rs): one localized label per generation. -/
def StarryPokemonGeneration.to_string : StarryPokemonGeneration → String
  | .Unknown => fl_localize "unknown"
  | .One => fl_localize "gen-i"
  | .Two => fl_localize "gen-ii"
  | .Three => fl_localize "gen-iii"
  | .Four => fl_localize "gen-iv"
  | .Five => fl_localize "gen-v"
  | .Six => fl_localize "gen-vi"
  | .Seven => fl_localize "gen-vii"
  | .Eight => fl_localize "gen-viii"
  | .Nine => fl_localize "gen-ix"

/-- `filter_pokemon_by_generation` (src/core.rs lines 269-300): narrow the
given list to entries whose id is in the snapshot, whose record has species
info and whose generation label is selected.  `rkyv::deserialize` of an
archived record cannot fail in this model (deserialization of a value the
serializer produced). -/
def filter_pokemon_by_generation (pokemon_data : Option StarrySnapshot)
    (pokemon_list : List PokemonInfo) (selected_generations : List String) :
    List PokemonInfo :=
  pokemon_list.filter (fun pokemon_info =>
    match pokemon_data with
    | some data =>
      match btree_get data pokemon_info.id with
      | some pokemon =>
        match pokemon.specie with
        | some pokemon_specie =>
          selected_generations.contains pokemon_specie.generation.to_string
        | none => false
      | none => false
    | none => false)

/-! ## Snapshot serialization (src/core.rs lines 362-400)

`save_to_file` serializes the `BTreeMap` with `rkyv::to_bytes` into one
contiguous, pointer-free blob; `load_from_file` memory-maps the file and
validates the whole blob with `rkyv::access` (bytecheck) before any handle is
returned.  The blob is modelled as a flat token stream (`List Tok`) produced
by a structural encoder, and `rkyv::access` as a front-to-back decoder that
must succeed and consume the entire stream — the same contract: a blob is
accepted only if every length, tag and field validates. -/

/-- One token of the serialized stream: an integer or a string payload. -/
inductive Tok where
  | num (n : Int)
  | str (s : String)
deriving DecidableEq, Repr

/-- The type of front-consuming decoders. -/
abbrev DecT (α : Type) := List Tok → Option (α × List Tok)

/-- Encode each element in sequence. -/
def encAll {α : Type} (enc : α → List Tok) : List α → List Tok
  | [] => []
  | x :: xs => enc x ++ encAll enc xs

/-- Length-prefixed list encoding. -/
def encodeListTok {α : Type} (enc : α → List Tok) (xs : List α) : List Tok :=
  Tok.num xs.length :: encAll enc xs

/-- Tagged option encoding: `0` for `none`, `1` followed by the payload. -/
def encodeOptTok {α : Type} (enc : α → List Tok) : Option α → List Tok
  | none => [Tok.num 0]
  | some x => Tok.num 1 :: enc x

/-- Encode a string as a single token. -/
def encodeStr (s : String) : List Tok := [Tok.str s]

/-- Decode one integer token. -/
def decInt : DecT Int
  | Tok.num n :: rest => some (n, rest)
  | _ => none

/-- Decode one string token. -/
def decStr : DecT String
  | Tok.str s :: rest => some (s, rest)
  | _ => none

/-- Decode a non-negative integer token as a length. -/
def decNatTok : DecT Nat := fun l =>
  (decInt l).bind fun p => if 0 ≤ p.1 then some (p.1.toNat, p.2) else none

/-- Decode exactly `n` consecutive elements. -/
def decCount {α : Type} (dec : DecT α) : Nat → DecT (List α)
  | 0 => fun l => some ([], l)
  | n + 1 => fun l =>
    (dec l).bind fun p =>
      (decCount dec n p.2).bind fun q => some (p.1 :: q.1, q.2)

/-- Decode a length-prefixed list. -/
def decListTok {α : Type} (dec : DecT α) : DecT (List α) := fun l =>
  (decNatTok l).bind fun p => decCount dec p.1 p.2

/-- Decode a tagged option; any tag other than `0`/`1` is invalid. -/
def decOptTok {α : Type} (dec : DecT α) : DecT (Option α)
  | Tok.num 0 :: rest => some (none, rest)
  | Tok.num 1 :: rest => (dec rest).bind fun p => some (some p.1, p.2)
  | _ => none

/-- A decoder is monotone when a successful parse is unaffected by extra
tokens appended after the part it consumed: it reads the stream strictly from
the front. -/
def DecMono {α : Type} (dec : DecT α) : Prop :=
  ∀ l v r s, dec l = some (v, r) → dec (l ++ s) = some (v, r ++ s)

theorem decMono_pure {α : Type} (c : α) : DecMono (fun l => some (c, l)) := by
  intro l v r s h
  simp only [Option.some.injEq, Prod.mk.injEq] at h
  simp [← h.1, ← h.2]

theorem decMono_fail {α : Type} : DecMono (α := α) (fun _ => none) := by
  intro l v r s h
  simp at h

theorem decMono_bind {α β : Type} {dec : DecT α} {f : α × List Tok → Option (β × List Tok)}
    (h1 : DecMono dec) (h2 : ∀ a : α, DecMono (fun l => f (a, l))) :
    DecMono (fun l => (dec l).bind f) := by
  intro l v r s h
  simp only [Option.bind_eq_some] at h
  obtain ⟨⟨a, m⟩, hd, hf⟩ := h
  simp only [h1 l a m s hd, Option.some_bind]
  exact h2 a m v r s hf

theorem decInt_mono : DecMono decInt := by
  intro l v r s h
  match l with
  | [] => simp [decInt] at h
  | Tok.num n :: rest =>
    simp only [decInt, Option.some.injEq, Prod.mk.injEq] at h
    simp [decInt, h.1, ← h.2]
  | Tok.str c :: rest => simp [decInt] at h

theorem decStr_mono : DecMono decStr := by
  intro l v r s h
  match l with
  | [] => simp [decStr] at h
  | Tok.num n :: rest => simp [decStr] at h
  | Tok.str c :: rest =>
    simp only [decStr, Option.some.injEq, Prod.mk.injEq] at h
    simp [decStr, h.1, ← h.2]

theorem decNatTok_mono : DecMono decNatTok := by
  unfold decNatTok
  refine decMono_bind decInt_mono ?_
  intro a
  by_cases ha : 0 ≤ a
  · simpa [ha] using decMono_pure a.toNat
  · simpa [ha] using decMono_fail

theorem decCount_mono {α : Type} {dec : DecT α} (hd : DecMono dec) :
    ∀ n : Nat, DecMono (decCount dec n) := by
  intro n
  induction n with
  | zero => exact decMono_pure []
  | succ k ih =>
    show DecMono (fun l => (dec l).bind _)
    refine decMono_bind hd ?_
    intro a
    show DecMono (fun l => (decCount dec k l).bind fun q => some (a :: q.1, q.2))
    refine decMono_bind ih ?_
    intro q
    exact decMono_pure (a :: q)

theorem decListTok_mono {α : Type} {dec : DecT α} (hd : DecMono dec) :
    DecMono (decListTok dec) := by
  unfold decListTok
  exact decMono_bind decNatTok_mono (fun n => decCount_mono hd n)

theorem decOptTok_mono {α : Type} {dec : DecT α} (hd : DecMono dec) :
    DecMono (decOptTok dec) := by
  intro l v r s h
  match l with
  | [] => simp [decOptTok] at h
  | Tok.str c :: rest => simp [decOptTok] at h
  | Tok.num n :: rest =>
    by_cases h0 : n = 0
    · subst h0
      simp only [decOptTok, Option.some.injEq, Prod.mk.injEq] at h
      simp [decOptTok, h.1, ← h.2]
    · by_cases h1 : n = 1
      · subst h1
        simp only [decOptTok, Option.bind_eq_some] at h
        obtain ⟨⟨a, m⟩, hdm, hsome⟩ := h
        simp only [Option.some.injEq, Prod.mk.injEq] at hsome
        have := hd rest a m s hdm
        simp only [List.cons_append, decOptTok, this, Option.some_bind]
        simp [hsome.1, ← hsome.2]
      · simp only [decOptTok] at h
        rw [show (Tok.num n :: rest : List Tok) = [Tok.num n] ++ rest from rfl] at h
        revert h
        split <;> intro h
        · rename_i heq
          simp at heq
          omega
        · rename_i heq
          simp at heq
          omega
        · exact absurd h (by simp)

/-! Round-trip laws: decoding the encoding returns the value, leaving any
appended suffix untouched. -/

@[simp] theorem decInt_cons (n : Int) (r : List Tok) :
    decInt (Tok.num n :: r) = some (n, r) := rfl

@[simp] theorem decStr_cons (s : String) (r : List Tok) :
    decStr (Tok.str s :: r) = some (s, r) := rfl

@[simp] theorem decNatTok_cons (n : Nat) (r : List Tok) :
    decNatTok (Tok.num n :: r) = some (n, r) := by
  simp [decNatTok]

theorem decCount_encAll {α : Type} {dec : DecT α} {enc : α → List Tok}
    (H : ∀ x r, dec (enc x ++ r) = some (x, r)) :
    ∀ (xs : List α) (r : List Tok),
      decCount dec xs.length (encAll enc xs ++ r) = some (xs, r) := by
  intro xs
  induction xs with
  | nil => intro r; simp [encAll, decCount]
  | cons x rest ih =>
    intro r
    simp [encAll, decCount, H x (encAll enc rest ++ r), ih r]

theorem decListTok_enc {α : Type} {dec : DecT α} {enc : α → List Tok}
    (H : ∀ x r, dec (enc x ++ r) = some (x, r)) (xs : List α) (r : List Tok) :
    decListTok dec (encodeListTok enc xs ++ r) = some (xs, r) := by
  simp [encodeListTok, decListTok, decCount_encAll H xs r]

theorem decOptTok_enc {α : Type} {dec : DecT α} {enc : α → List Tok}
    (H : ∀ x r, dec (enc x ++ r) = some (x, r)) (o : Option α) (r : List Tok) :
    decOptTok dec (encodeOptTok enc o ++ r) = some (o, r) := by
  cases o with
  | none => simp [encodeOptTok, decOptTok]
  | some x => simp [encodeOptTok, decOptTok, H x r]

/-! Structural encoders/decoders for the archived record types, field by
field in declaration order. -/

/-- Serialize the six stats. -/
def encodeStats (s : StarryPokemonStats) : List Tok :=
  [Tok.num s.hp, Tok.num s.attack, Tok.num s.defense,
   Tok.num s.sp_attack, Tok.num s.sp_defense, Tok.num s.speed]

/-- Validate and read the six stats. -/
def decStats : DecT StarryPokemonStats := fun l =>
  (decInt l).bind fun p1 =>
  (decInt p1.2).bind fun p2 =>
  (decInt p2.2).bind fun p3 =>
  (decInt p3.2).bind fun p4 =>
  (decInt p4.2).bind fun p5 =>
  (decInt p5.2).bind fun p6 =>
  some (⟨p1.1, p2.1, p3.1, p4.1, p5.1, p6.1⟩, p6.2)

/-- Tag of a generation (its discriminant). -/
def genTag : StarryPokemonGeneration → Int
  | .Unknown => 0
  | .One => 1
  | .Two => 2
  | .Three => 3
  | .Four => 4
  | .Five => 5
  | .Six => 6
  | .Seven => 7
  | .Eight => 8
  | .Nine => 9

/-- Generation of a tag; tags outside `0..9` are invalid. -/
def genOfTag : Int → Option StarryPokemonGeneration
  | 0 => some .Unknown
  | 1 => some .One
  | 2 => some .Two
  | 3 => some .Three
  | 4 => some .Four
  | 5 => some .Five
  | 6 => some .Six
  | 7 => some .Seven
  | 8 => some .Eight
  | 9 => some .Nine
  | _ => none

/-- Serialize a generation as its tag. -/
def encodeGen (g : StarryPokemonGeneration) : List Tok := [Tok.num (genTag g)]

/-- Validate and read a generation tag. -/
def decGen : DecT StarryPokemonGeneration := fun l =>
  (decInt l).bind fun p =>
    match genOfTag p.1 with
    | some g => some (g, p.2)
    | none => none

/-- Serialize one evolution node. -/
def encodeEvo (e : StarryEvolutionData) : List Tok :=
  Tok.num e.id :: Tok.str e.name ::
    (encodeOptTok encodeStr e.sprite_path ++ encodeOptTok encodeStr e.needs_to_evolve)

/-- Validate and read one evolution node. -/
def decEvo : DecT StarryEvolutionData := fun l =>
  (decInt l).bind fun p1 =>
  (decStr p1.2).bind fun p2 =>
  (decOptTok decStr p2.2).bind fun p3 =>
  (decOptTok decStr p3.2).bind fun p4 =>
  some (⟨p1.1, p2.1, p3.1, p4.1⟩, p4.2)

/-- Serialize the species info. -/
def encodeSpecie (sp : StarryPokemonSpecie) : List Tok :=
  encodeOptTok encodeStr sp.evolution_chain_url ++
    (encodeOptTok encodeStr sp.flavor_text ++
      (encodeGen sp.generation ++ encodeListTok encodeEvo sp.evolution_data))

/-- Validate and read the species info. -/
def decSpecie : DecT StarryPokemonSpecie := fun l =>
  (decOptTok decStr l).bind fun p1 =>
  (decOptTok decStr p1.2).bind fun p2 =>
  (decGen p2.2).bind fun p3 =>
  (decListTok decEvo p3.2).bind fun p4 =>
  some (⟨p1.1, p2.1, p3.1, p4.1⟩, p4.2)

/-- Serialize one encounter info entry. -/
def encodeEnc (e : StarryPokemonEncounterInfo) : List Tok :=
  Tok.str e.city :: encodeListTok encodeStr e.games_method

/-- Validate and read one encounter info entry. -/
def decEnc : DecT StarryPokemonEncounterInfo := fun l =>
  (decStr l).bind fun p1 =>
  (decListTok decStr p1.2).bind fun p2 =>
  some (⟨p1.1, p2.1⟩, p2.2)

/-- Serialize the core Pokémon data. -/
def encodeData (d : StarryPokemonData) : List Tok :=
  Tok.num d.id :: Tok.str d.name :: Tok.num d.weight :: Tok.num d.height ::
    (encodeListTok encodeStr d.types ++
      (encodeListTok encodeStr d.abilities ++ encodeStats d.stats))

/-- Validate and read the core Pokémon data. -/
def decData : DecT StarryPokemonData := fun l =>
  (decInt l).bind fun p1 =>
  (decStr p1.2).bind fun p2 =>
  (decInt p2.2).bind fun p3 =>
  (decInt p3.2).bind fun p4 =>
  (decListTok decStr p4.2).bind fun p5 =>
  (decListTok decStr p5.2).bind fun p6 =>
  (decStats p6.2).bind fun p7 =>
  some (⟨p1.1, p2.1, p3.1, p4.1, p5.1, p6.1, p7.1⟩, p7.2)

/-- Serialize one full record. -/
def encodePokemon (p : StarryPokemon) : List Tok :=
  encodeData p.pokemon ++
    (encodeOptTok encodeSpecie p.specie ++
      (encodeOptTok encodeStr p.sprite_path ++
        encodeOptTok (encodeListTok encodeEnc) p.encounter_info))

/-- Validate and read one full record. -/
def decPokemon : DecT StarryPokemon := fun l =>
  (decData l).bind fun p1 =>
  (decOptTok decSpecie p1.2).bind fun p2 =>
  (decOptTok decStr p2.2).bind fun p3 =>
  (decOptTok (decListTok decEnc) p3.2).bind fun p4 =>
  some (⟨p1.1, p2.1, p3.1, p4.1⟩, p4.2)

/-- Serialize one key/record pair of the map. -/
def encodeEntry (entry : Int × StarryPokemon) : List Tok :=
  Tok.num entry.1 :: encodePokemon entry.2

/-- Validate and read one key/record pair. -/
def decEntry : DecT (Int × StarryPokemon) := fun l =>
  (decInt l).bind fun p1 =>
  (decPokemon p1.2).bind fun p2 =>
  some ((p1.1, p2.1), p2.2)

/-- Validate and read the whole archived map. -/
def decMap : DecT StarrySnapshot := decListTok decEntry

/-! Round-trip laws for the record codecs. -/

@[simp] theorem decStats_enc (s : StarryPokemonStats) (r : List Tok) :
    decStats (encodeStats s ++ r) = some (s, r) := rfl

@[simp] theorem decGen_enc (g : StarryPokemonGeneration) (r : List Tok) :
    decGen (encodeGen g ++ r) = some (g, r) := by
  cases g <;> rfl

@[simp] theorem decOptStr_enc (o : Option String) (r : List Tok) :
    decOptTok decStr (encodeOptTok encodeStr o ++ r) = some (o, r) :=
  decOptTok_enc (fun x r => by simp [encodeStr]) o r

@[simp] theorem decListStr_enc (xs : List String) (r : List Tok) :
    decListTok decStr (encodeListTok encodeStr xs ++ r) = some (xs, r) :=
  decListTok_enc (fun x r => by simp [encodeStr]) xs r

@[simp] theorem decEvo_enc (e : StarryEvolutionData) (r : List Tok) :
    decEvo (encodeEvo e ++ r) = some (e, r) := by
  simp [encodeEvo, decEvo]

@[simp] theorem decListEvo_enc (xs : List StarryEvolutionData) (r : List Tok) :
    decListTok decEvo (encodeListTok encodeEvo xs ++ r) = some (xs, r) :=
  decListTok_enc (fun x r => decEvo_enc x r) xs r

@[simp] theorem decSpecie_enc (sp : StarryPokemonSpecie) (r : List Tok) :
    decSpecie (encodeSpecie sp ++ r) = some (sp, r) := by
  simp [encodeSpecie, decSpecie]

@[simp] theorem decOptSpecie_enc (o : Option StarryPokemonSpecie) (r : List Tok) :
    decOptTok decSpecie (encodeOptTok encodeSpecie o ++ r) = some (o, r) :=
  decOptTok_enc (fun x r => decSpecie_enc x r) o r

@[simp] theorem decEnc_enc (e : StarryPokemonEncounterInfo) (r : List Tok) :
    decEnc (encodeEnc e ++ r) = some (e, r) := by
  simp [encodeEnc, decEnc]

@[simp] theorem decListEnc_enc (xs : List StarryPokemonEncounterInfo) (r : List Tok) :
    decListTok decEnc (encodeListTok encodeEnc xs ++ r) = some (xs, r) :=
  decListTok_enc (fun x r => decEnc_enc x r) xs r

@[simp] theorem decOptListEnc_enc (o : Option (List StarryPokemonEncounterInfo))
    (r : List Tok) :
    decOptTok (decListTok decEnc) (encodeOptTok (encodeListTok encodeEnc) o ++ r) =
      some (o, r) :=
  decOptTok_enc (fun x r => decListEnc_enc x r) o r

@[simp] theorem decData_enc (d : StarryPokemonData) (r : List Tok) :
    decData (encodeData d ++ r) = some (d, r) := by
  simp [encodeData, decData]

@[simp] theorem decPokemon_enc (p : StarryPokemon) (r : List Tok) :
    decPokemon (encodePokemon p ++ r) = some (p, r) := by
  simp [encodePokemon, decPokemon]

@[simp] theorem decEntry_enc (entry : Int × StarryPokemon) (r : List Tok) :
    decEntry (encodeEntry entry ++ r) = some (entry, r) := by
  simp [encodeEntry, decEntry]

theorem decMap_enc (m : StarrySnapshot) (r : List Tok) :
    decMap (encodeListTok encodeEntry m ++ r) = some (m, r) :=
  decListTok_enc (fun x r => decEntry_enc x r) m r

/-! Monotonicity of the record decoders: they read the stream strictly from
the front, so appended data never changes an accepted parse. -/

theorem decStats_mono : DecMono decStats := by
  unfold decStats
  refine decMono_bind decInt_mono ?_; intro a1; dsimp only
  refine decMono_bind decInt_mono ?_; intro a2; dsimp only
  refine decMono_bind decInt_mono ?_; intro a3; dsimp only
  refine decMono_bind decInt_mono ?_; intro a4; dsimp only
  refine decMono_bind decInt_mono ?_; intro a5; dsimp only
  refine decMono_bind decInt_mono ?_; intro a6; dsimp only
  exact decMono_pure _

theorem decGen_mono : DecMono decGen := by
  unfold decGen
  refine decMono_bind decInt_mono ?_; intro a; dsimp only
  cases h : genOfTag a with
  | none => simpa [h] using decMono_fail
  | some g => simpa [h] using decMono_pure g

theorem decEvo_mono : DecMono decEvo := by
  unfold decEvo
  refine decMono_bind decInt_mono ?_; intro a1; dsimp only
  refine decMono_bind decStr_mono ?_; intro a2; dsimp only
  refine decMono_bind (decOptTok_mono decStr_mono) ?_; intro a3; dsimp only
  refine decMono_bind (decOptTok_mono decStr_mono) ?_; intro a4; dsimp only
  exact decMono_pure _

theorem decSpecie_mono : DecMono decSpecie := by
  unfold decSpecie
  refine decMono_bind (decOptTok_mono decStr_mono) ?_; intro a1; dsimp only
  refine decMono_bind (decOptTok_mono decStr_mono) ?_; intro a2; dsimp only
  refine decMono_bind decGen_mono ?_; intro a3; dsimp only
  refine decMono_bind (decListTok_mono decEvo_mono) ?_; intro a4; dsimp only
  exact decMono_pure _

theorem decEnc_mono : DecMono decEnc := by
  unfold decEnc
  refine decMono_bind decStr_mono ?_; intro a1; dsimp only
  refine decMono_bind (decListTok_mono decStr_mono) ?_; intro a2; dsimp only
  exact decMono_pure _

theorem decData_mono : DecMono decData := by
  unfold decData
  refine decMono_bind decInt_mono ?_; intro a1; dsimp only
  refine decMono_bind decStr_mono ?_; intro a2; dsimp only
  refine decMono_bind decInt_mono ?_; intro a3; dsimp only
  refine decMono_bind decInt_mono ?_; intro a4; dsimp only
  refine decMono_bind (decListTok_mono decStr_mono) ?_; intro a5; dsimp only
  refine decMono_bind (decListTok_mono decStr_mono) ?_; intro a6; dsimp only
  refine decMono_bind decStats_mono ?_; intro a7; dsimp only
  exact decMono_pure _

theorem decPokemon_mono : DecMono decPokemon := by
  unfold decPokemon
  refine decMono_bind decData_mono ?_; intro a1; dsimp only
  refine decMono_bind (decOptTok_mono decSpecie_mono) ?_; intro a2; dsimp only
  refine decMono_bind (decOptTok_mono decStr_mono) ?_; intro a3; dsimp only
  refine decMono_bind (decOptTok_mono (decListTok_mono decEnc_mono)) ?_; intro a4; dsimp only
  exact decMono_pure _

theorem decEntry_mono : DecMono decEntry := by
  unfold decEntry
  refine decMono_bind decInt_mono ?_; intro a1; dsimp only
  refine decMono_bind decPokemon_mono ?_; intro a2; dsimp only
  exact decMono_pure _

theorem decMap_mono : DecMono decMap :=
  decListTok_mono decEntry_mono

/-! ## save_to_file / load_from_file / initialize (src/core.rs lines 44-116, 362-400) -/

/-- `APP_ID` (src/core.rs line 26). -/
def APP_ID : String := "dev.mariinkys.StarryDex"

/-- The serialized blob `rkyv::to_bytes` produces for the keyed collection
(src/core.rs lines 370-371). -/
def saveBytes (pokemons : StarrySnapshot) : List Tok :=
  encodeListTok encodeEntry pokemons

/-- `load_from_file` (src/core.rs lines 386-400): validate the whole mapped
blob with `rkyv::access` before returning any handle; `none` models the error
return, and no partially validated view exists — either the full decoded map
comes back or nothing does. -/
def load_from_file (blob : List Tok) : Option StarrySnapshot :=
  match decMap blob with
  | some (m, []) => some m
  | _ => none

/-- Which path `initialize` ended on. -/
inductive InitSource where
  | cache
  | rebuilt
deriving DecidableEq, Repr

/-- `initialize` (src/core.rs lines 46-82): try the cached blob first
(`cached_blob = none` models a missing cache file); on any load failure fall
back to `refresh_data_internal`, which fetches `fetched` from the API, saves
it and loads the fresh file. -/
def initCore (cached_blob : Option (List Tok)) (fetched : StarrySnapshot) :
    Option (StarrySnapshot × InitSource) :=
  match cached_blob with
  | some blob =>
    match load_from_file blob with
    | some data => some (data, InitSource.cache)
    | none => (load_from_file (saveBytes fetched)).map (fun d => (d, InitSource.rebuilt))
  | none => (load_from_file (saveBytes fetched)).map (fun d => (d, InitSource.rebuilt))

theorem decMap_saveBytes (m : StarrySnapshot) : decMap (saveBytes m) = some (m, []) := by
  have h := decMap_enc m []
  rwa [List.append_nil] at h

theorem load_from_file_saveBytes (m : StarrySnapshot) :
    load_from_file (saveBytes m) = some m := by
  simp [load_from_file, decMap_saveBytes]

/-! ## The write trace of save_to_file (src/core.rs lines 363-383)

`save_to_file` resolves `data_dir()/APP_ID`, creates it, then opens
`pokemon_cache.bin` with `write/create/truncate`, writes the serialized bytes
and flushes.  We record the filesystem operations it performs, in order;
paths are lists of segments and `data_dir` is a parameter. -/

/-- One filesystem operation performed by the serializer. -/
inductive FsOp where
  | createDirAll (path : List String)
  | openTruncate (path : List String)
  | writeAll (bytes : List Tok)
  | flushFile
  | renameFile (src dst : List String)
deriving DecidableEq, Repr

/-- `dirs::data_dir().join(APP_ID)`. -/
def cache_dir (data_dir : List String) : List String := data_dir ++ [APP_ID]

/-- `cache_dir.join("pokemon_cache.bin")` — the final on-disk path. -/
def cache_path (data_dir : List String) : List String :=
  cache_dir data_dir ++ ["pokemon_cache.bin"]

/-- The operations `save_to_file` performs, in order (src/core.rs 363-381). -/
def save_to_file_trace (data_dir : List String) (pokemons : StarrySnapshot) :
    List FsOp :=
  [FsOp.createDirAll (cache_dir data_dir),
   FsOp.openTruncate (cache_path data_dir),
   FsOp.writeAll (saveBytes pokemons),
   FsOp.flushFile]

/-- The path `load_from_file` opens (src/core.rs lines 387-390). -/
def load_path (data_dir : List String) : List String :=
  data_dir ++ [APP_ID, "pokemon_cache.bin"]

/-- The write discipline claimed by the spec, in its words: the serializer
writes the blob atomically — a fully written temporary file is renamed into
the final path, and the final path itself is never opened for truncation (so
a reader can never observe a partially written file). -/
def atomicRenameWrite (trace : List FsOp) (final_path : List String) : Prop :=
  (∃ tmp, FsOp.renameFile tmp final_path ∈ trace) ∧
    FsOp.openTruncate final_path ∉ trace

/-! ## The population pipeline (src/core.rs lines 429-602)

`fetch_pokemon_details` runs four network fetches for one entity.  The
network is modelled as pre-supplied `Except` results (one per fetch); the
function body is the translation of the Rust control flow over them.  Note
the `?` operators: a failed detail fetch or a failed encounter fetch returns
early with the error, while species and evolution failures only degrade the
record. -/

/-- `rustemon::model::pokemon::PokemonType` (the `types` list element). -/
structure PokemonTypeEntry where
  slot : Int
  type_ : NamedApiResource
deriving DecidableEq, Repr

/-- `rustemon::model::pokemon::PokemonAbility`. -/
structure PokemonAbilityEntry where
  is_hidden : Bool
  slot : Int
  ability : NamedApiResource
deriving DecidableEq, Repr

/-- `rustemon::model::pokemon::PokemonStat`. -/
structure PokemonStatEntry where
  stat : NamedApiResource
  effort : Int
  base_stat : Int
deriving DecidableEq, Repr

/-- The `sprites` field — only `front_default` is consulted. -/
structure PokemonSprites where
  front_default : Option String
deriving DecidableEq, Repr

/-- `rustemon::model::pokemon::Pokemon` — the fields core.rs reads. -/
structure Pokemon where
  id : Int
  name : String
  weight : Int
  height : Int
  types : List PokemonTypeEntry
  abilities : List PokemonAbilityEntry
  stats : List PokemonStatEntry
  sprites : PokemonSprites
deriving DecidableEq, Repr

/-- One flavor text record of the species. -/
structure FlavorTextEntry where
  flavor_text : String
  language : NamedApiResource
deriving DecidableEq, Repr

/-- `rustemon::model::pokemon::PokemonSpecies` — the fields core.rs reads. -/
structure PokemonSpecies where
  evolution_chain : Option APIResource
  flavor_text_entries : List FlavorTextEntry
  generation : NamedApiResource
deriving DecidableEq, Repr

/-- `rustemon::model::evolution::EvolutionChain`. -/
structure EvolutionChain where
  id : Int
  chain : ChainLink

/-- One encounter method record (only `method` is read). -/
structure EncounterRec where
  method : NamedApiResource
deriving DecidableEq, Repr

/-- `rustemon::model::pokemon::VersionEncounterDetail`. -/
structure VersionEncounterDetail where
  version : NamedApiResource
  encounter_details : List EncounterRec
deriving DecidableEq, Repr

/-- `rustemon::model::pokemon::LocationAreaEncounter`. -/
structure LocationAreaEncounter where
  location_area : NamedApiResource
  version_details : List VersionEncounterDetail
deriving DecidableEq, Repr

/-- `parse_pokemon_stats` (src/assetgen/src/main.rs lines 302-325): start
from all zeroes and overwrite the field named by each stat entry; unknown
stat names are ignored. -/
def parse_pokemon_stats (stats : List PokemonStatEntry) : StarryPokemonStats :=
  stats.foldl
    (fun acc stat =>
      match stat.stat.name with
      | "hp" => { acc with hp := stat.base_stat }
      | "attack" => { acc with attack := stat.base_stat }
      | "defense" => { acc with defense := stat.base_stat }
      | "special-attack" => { acc with sp_attack := stat.base_stat }
      | "special-defense" => { acc with sp_defense := stat.base_stat }
      | "speed" => { acc with speed := stat.base_stat }
      | _ => acc)
    ⟨0, 0, 0, 0, 0, 0⟩

/-- `StarryPokemonGeneration::from_name` (src/entities/starry_pokemon.rs). -/
def StarryPokemonGeneration.from_name (name : String) : StarryPokemonGeneration :=
  match rustToLowercase name with
  | "generation-i" => .One
  | "generation-ii" => .Two
  | "generation-iii" => .Three
  | "generation-iv" => .Four
  | "generation-v" => .Five
  | "generation-vi" => .Six
  | "generation-vii" => .Seven
  | "generation-viii" => .Eight
  | "generation-ix" => .Nine
  | _ => .Unknown

/-- Rust `char::is_control` (the Unicode `Cc` category). -/
def isControlChar (c : Char) : Bool :=
  c.toNat < 0x20 || (0x7f ≤ c.toNat && c.toNat ≤ 0x9f)

/-- The flavor-text cleanup (src/core.rs lines 576-584): map control
characters to spaces, then split on whitespace and re-join with single
spaces. -/
def cleanFlavorText (s : String) : String :=
  String.intercalate " "
    (((splitBy (fun c => c.isWhitespace)
          (s.toList.map (fun c => if isControlChar c then ' ' else c))).filter
        (fun w => w ≠ [])).map String.mk)

/-- The evolution-chain id parse inside `fetch_pokemon_details` (src/core.rs
lines 479-489): trailing path segment, `str::parse::<i64>`, id `0` invalid. -/
def parse_evolution_chain_id (url : String) : Except String Int :=
  match url_trailing_segment url with
  | none => Except.error "Invalid URL format"
  | some seg =>
    match parseI64 seg with
    | none => Except.error "Could not parse evolution chain ID"
    | some id => if id = 0 then Except.error "Invalid evolution chain ID" else Except.ok id

/-- The four network results one entity's pipeline consumes: the detail
fetch, the encounter fetch, the species fetch and (when it is attempted) the
evolution-chain fetch. -/
structure FetchPokemonInput where
  detail : Except String Pokemon
  encounters : Except String (List LocationAreaEncounter)
  species : Except String PokemonSpecies
  evolution : Except String EvolutionChain

/-- `fetch_pokemon_details` (src/core.rs lines 459-602).  `data_dir` is the
platform data directory as path segments. -/
def fetch_pokemon_details (inp : FetchPokemonInput) (data_dir : List String) :
    Except String StarryPokemon :=
  match inp.detail with
  | Except.error e => Except.error e
  | Except.ok pokemon =>
  match inp.encounters with
  | Except.error e => Except.error e
  | Except.ok encounter_info =>
    let specie_info := inp.species
    let evolution_info : Except String EvolutionChain :=
      match specie_info with
      | Except.ok sp =>
        match sp.evolution_chain with
        | none => Except.error "No evolution chain data"
        | some ec =>
          match parse_evolution_chain_id ec.url with
          | Except.error e => Except.error e
          | Except.ok _ => inp.evolution
      | Except.error _ => Except.error "Species info not available"
    let resources_path := data_dir ++ [APP_ID, "resources", "sprites"]
    let image_path : Option String :=
      match pokemon.sprites.front_default with
      | some _ =>
        some (String.intercalate "/"
          (resources_path ++ [pokemon.name, pokemon.name ++ "_front.png"]))
      | none => none
    let starry_pokemon_data : StarryPokemonData :=
      { id := pokemon.id
        name := pokemon.name
        weight := pokemon.weight
        height := pokemon.height
        types := pokemon.types.map (fun t => t.type_.name)
        abilities := pokemon.abilities.map (fun a =>
          if a.is_hidden then a.ability.name ++ " (HIDDEN)" else a.ability.name)
        stats := parse_pokemon_stats pokemon.stats }
    let starry_encounter_info : List StarryPokemonEncounterInfo :=
      encounter_info.map (fun ef =>
        { city := capitalize_string ef.location_area.name
          games_method := ef.version_details.map (fun vd =>
            capitalize_string vd.version.name ++ ": " ++
              String.intercalate ", "
                ((vd.encounter_details.map (fun ed =>
                    capitalize_string ed.method.name)).dedup)) })
    let starry_specie_info : Option StarryPokemonSpecie :=
      match specie_info with
      | Except.ok sp =>
        some
          { evolution_chain_url := sp.evolution_chain.map (fun x => x.url)
            flavor_text :=
              (sp.flavor_text_entries.find? (fun x => x.language.name == "en")).map
                (fun x => cleanFlavorText x.flavor_text)
            generation := StarryPokemonGeneration.from_name sp.generation.name
            evolution_data :=
              match evolution_info with
              | Except.ok evo => extract_evolution_data_from_chain_link evo.chain resources_path
              | Except.error _ => [] }
      | Except.error _ => none
    Except.ok
      { pokemon := starry_pokemon_data
        specie := starry_specie_info
        sprite_path := image_path
        encounter_info := some starry_encounter_info }

/-- `BTreeMap` insertion in key order, replacing an existing key — the
collect step of `fetch_all_pokemon`. -/
def btreeInsert (m : StarrySnapshot) (k : Int) (v : StarryPokemon) : StarrySnapshot :=
  match m with
  | [] => [(k, v)]
  | (k0, v0) :: rest =>
    if k < k0 then (k, v) :: (k0, v0) :: rest
    else if k = k0 then (k, v) :: rest
    else (k0, v0) :: btreeInsert rest k v

/-- `fetch_all_pokemon` (src/core.rs lines 431-456): a failed entity listing
is `unwrap_or_default`-ed to the empty list; per-entity pipelines run under a
semaphore and the successes (`filter_map(Result::ok)`) are re-keyed by id
into the ordered map, so the result is independent of completion order.  The
network is an `oracle` from entity name to that entity's four fetch
results. -/
def fetch_all_pokemon (listing : Except String (List NamedApiResource))
    (oracle : String → FetchPokemonInput) (data_dir : List String) : StarrySnapshot :=
  let all_entries := match listing with
    | Except.ok entries => entries
    | Except.error _ => []
  let results := all_entries.map (fun entry => fetch_pokemon_details (oracle entry.name) data_dir)
  (results.filterMap Except.toOption).foldl
    (fun m pokemon => btreeInsert m pokemon.pokemon.id pokemon) []

/-! ## Concrete sample data used by witnesses and counterexamples -/

/-- A minimal record for concrete tests. -/
def sampleRecord (id : Int) (name : String) : StarryPokemon :=
  { pokemon :=
      { id := id, name := name, weight := 0, height := 0
        types := [], abilities := [], stats := ⟨0, 0, 0, 0, 0, 0⟩ }
    specie := none
    sprite_path := none
    encounter_info := none }

/-- A three-entry snapshot in key order. -/
def witnessSnapshot : StarrySnapshot :=
  [(1, sampleRecord 1 "bulbasaur"), (2, sampleRecord 2 "ivysaur"),
   (3, sampleRecord 3 "venusaur")]

/-! ## Theorems -/

/-- C1: Round-trip through the snapshot.  Serializing any in-memory keyed
collection with `save_to_file`, validating and opening the blob with
`load_from_file`, and looking up any id with `get_pokemon_by_id` returns
exactly the record the original collection held under that key (so in
particular its id, name, weight, height, types, abilities and stats are
identical), and the loaded snapshot is the whole original collection. -/
theorem snapshot_roundtrip_get_by_id (m : StarrySnapshot) (id : Int) :
    load_from_file (saveBytes m) = some m ∧
    get_pokemon_by_id (load_from_file (saveBytes m)) id = btree_get m id := by
  refine ⟨load_from_file_saveBytes m, ?_⟩
  simp [get_pokemon_by_id, load_from_file_saveBytes]

/-- C2: `get_pokemon_page` returns exactly the id-ordered slice
`drop offset |> take (min limit (length - offset))` of the snapshot (a total
function — no panic, no error value), hence its length is
`min limit (length - offset)`, and the result is empty whenever
`offset ≥ length` or `limit = 0`. -/
theorem get_pokemon_page_spec (data : StarrySnapshot) (offset limit : Nat) :
    get_pokemon_page (some data) offset limit =
      ((data.drop offset).take (min limit (data.length - offset))).map mkPokemonInfo ∧
    (get_pokemon_page (some data) offset limit).length =
      min limit (data.length - offset) ∧
    (data.length ≤ offset ∨ limit = 0 → get_pokemon_page (some data) offset limit = []) := by
  have hmain : get_pokemon_page (some data) offset limit =
      ((data.drop offset).take (min limit (data.length - offset))).map mkPokemonInfo := by
    unfold get_pokemon_page
    by_cases h0 : data.length = 0 ∨ limit = 0
    · rcases h0 with h0 | h0
      · have hdata : data = [] := List.length_eq_zero.mp h0
        subst hdata; simp
      · subst h0; simp
    · push_neg at h0
      dsimp only
      rw [if_neg (show ¬(data.length = 0 ∨ limit = 0) by tauto)]
      by_cases hoff : offset < data.length
      · have h1 : data.length - min offset (data.length - 1) = data.length - offset := by omega
        rw [h1]
      · have hdrop : data.drop offset = [] := List.drop_eq_nil_of_le (by omega)
        rw [hdrop]
        simp
  refine ⟨hmain, ?_, ?_⟩
  · rw [hmain]
    simp only [List.length_map, List.length_take, List.length_drop]
    omega
  · intro h
    rw [hmain]
    rcases h with h | h
    · rw [List.drop_eq_nil_of_le h]; simp
    · subst h; simp

/-- C2 witness: on the three-entry snapshot built from default records,
`offset = 1`, `limit = 5` returns the two remaining entries. -/
theorem get_pokemon_page_spec_witness :
    (get_pokemon_page (some witnessSnapshot) 1 5).length = min 5 (witnessSnapshot.length - 1) ∧
    ((witnessSnapshot.length : Nat) ≤ 7 ∨ (0 : Nat) = 0 →
      get_pokemon_page (some witnessSnapshot) 7 0 = []) :=
  ⟨(get_pokemon_page_spec witnessSnapshot 1 5).2.1,
   (get_pokemon_page_spec witnessSnapshot 7 0).2.2⟩

/-- C4: opening a truncated snapshot blob.  For every collection `m` and
every strict prefix `p` of its serialized blob, validation fails:
`load_from_file` returns `none` (never a partially valid view), and
`initialize` falls back to the rebuild path — it re-fetches, re-serializes
and ends up with the freshly fetched data, not a crash. -/
theorem truncated_snapshot_rejected (m fetched : StarrySnapshot) (p s : List Tok)
    (hps : saveBytes m = p ++ s) (hs : s ≠ []) :
    load_from_file p = none ∧
    initCore (some p) fetched = some (fetched, InitSource.rebuilt) := by
  have hnone : load_from_file p = none := by
    cases hld : decMap p with
    | none => simp [load_from_file, hld]
    | some q =>
      obtain ⟨m2, rest⟩ := q
      cases rest with
      | cons t ts => simp [load_from_file, hld]
      | nil =>
        exfalso
        have h2 : decMap (p ++ s) = some (m2, s) := by
          simpa using decMap_mono p m2 [] s hld
        rw [← hps, decMap_saveBytes] at h2
        simp only [Option.some.injEq, Prod.mk.injEq] at h2
        exact hs h2.2.symm
  refine ⟨hnone, ?_⟩
  simp [initCore, hnone, load_from_file_saveBytes]

/-- C4 witness: the empty prefix of the serialized empty collection is
rejected and `initialize` rebuilds. -/
theorem truncated_snapshot_rejected_witness :
    load_from_file [] = none ∧
    initCore (some []) [] = some ([], InitSource.rebuilt) :=
  truncated_snapshot_rejected [] [] [] [Tok.num 0] rfl (by simp)

/-- C5 counterexample: `save_to_file` does not follow the claimed atomic
write-temporary-then-rename discipline — its trace (here on the empty
collection, any input behaves the same) truncates the final cache path in
place and performs no rename at all. -/
theorem save_not_atomic_counterexample :
    ¬ atomicRenameWrite (save_to_file_trace [] []) (cache_path []) := by
  intro h
  obtain ⟨⟨tmp, hmem⟩, _⟩ := h
  simp [save_to_file_trace] at hmem

/-- C5 amended: `save_to_file` writes the blob by truncating and rewriting
the one fixed path `data_dir/APP_ID/pokemon_cache.bin` in place (opening the
final path for truncation before the bytes are written, with no rename step),
the path's file name is the constant, version-free `pokemon_cache.bin`, and
`load_from_file` reads that same fixed path — so incompatible blobs are kept
out only by structural validation on load, not by a versioned path. -/
theorem save_write_discipline (data_dir : List String) (pokemons : StarrySnapshot) :
    save_to_file_trace data_dir pokemons =
      [FsOp.createDirAll (cache_dir data_dir),
       FsOp.openTruncate (cache_path data_dir),
       FsOp.writeAll (saveBytes pokemons),
       FsOp.flushFile] ∧
    (∀ src dst, FsOp.renameFile src dst ∉ save_to_file_trace data_dir pokemons) ∧
    load_path data_dir = cache_path data_dir ∧
    (cache_path data_dir).getLast? = some "pokemon_cache.bin" := by
  refine ⟨rfl, ?_, ?_, ?_⟩
  · intro src dst
    simp [save_to_file_trace]
  · simp [load_path, cache_path, cache_dir]
  · simp [cache_path]

/-- C9: an empty type selection filters nothing — both `filter_pokemon_inclusive`
and `filter_pokemon_exclusive` return the full listing. -/
theorem empty_type_selection_no_filtering (pokemon_data : Option StarrySnapshot) :
    filter_pokemon_inclusive pokemon_data [] = get_pokemon_list pokemon_data ∧
    filter_pokemon_exclusive pokemon_data [] = get_pokemon_list pokemon_data := by
  cases pokemon_data with
  | none => exact ⟨rfl, rfl⟩
  | some data =>
    constructor
    · simp [filter_pokemon_inclusive, get_pokemon_list]
    · simp [filter_pokemon_exclusive, get_pokemon_list]

/-- C10: `filter_pokemon_by_generation` keeps an entry of the input subset
exactly when its id is a key of the loaded snapshot, the stored record has
species info, and the species' generation display string is in the
selection; consequently an empty selection returns the empty list (the type
filters' empty-selection no-op policy does not apply here) and entries
without species info are always excluded. -/
theorem filter_by_generation_spec (data : StarrySnapshot)
    (pokemon_list : List PokemonInfo) (selected_generations : List String) :
    (∀ info, info ∈ filter_pokemon_by_generation (some data) pokemon_list selected_generations ↔
      info ∈ pokemon_list ∧
        ∃ p sp, btree_get data info.id = some p ∧ p.specie = some sp ∧
          sp.generation.to_string ∈ selected_generations) ∧
    filter_pokemon_by_generation (some data) pokemon_list [] = [] := by
  constructor
  · intro info
    simp only [filter_pokemon_by_generation, List.mem_filter]
    refine and_congr_right fun _ => ?_
    cases hget : btree_get data info.id with
    | none => simp [hget]
    | some p =>
      cases hsp : p.specie with
      | none => simp [hget, hsp]
      | some sp => simp [hget, hsp, List.elem_iff]
  · refine List.filter_eq_nil_iff.mpr fun info _ => ?_
    cases hget : btree_get data info.id with
    | none => simp [hget]
    | some p =>
      cases hsp : p.specie with
      | none => simp [hget, hsp]
      | some sp => simp [hget, hsp]

/-- A minimal remote detail record for concrete pipeline tests. -/
def pokemonA : Pokemon :=
  { id := 1, name := "bulbasaur", weight := 69, height := 7
    types := [], abilities := [], stats := []
    sprites := { front_default := none } }

/-- A pipeline input whose detail fetch succeeds but whose encounter fetch
fails. -/
def inputEncounterFail : FetchPokemonInput :=
  { detail := Except.ok pokemonA
    encounters := Except.error "encounter fetch failed"
    species := Except.error "species not fetched"
    evolution := Except.error "evolution not fetched" }

/-- A pipeline input whose detail and encounter fetches succeed but whose
species fetch fails. -/
def inputSpeciesFail : FetchPokemonInput :=
  { detail := Except.ok pokemonA
    encounters := Except.ok []
    species := Except.error "species down"
    evolution := Except.error "unused" }

/-- C3 counterexample: an entity whose detail fetch succeeds but whose
encounter fetch fails is dropped — `fetch_pokemon_details` propagates the
encounter error (the `?` on the encounters fetch) and the entity is missing
from the resulting collection, contrary to the claim that an encounter
failure only degrades the entity's data. -/
theorem encounter_failure_drops_entity_counterexample :
    inputEncounterFail.detail = Except.ok pokemonA ∧
    fetch_pokemon_details inputEncounterFail [] = Except.error "encounter fetch failed" ∧
    fetch_all_pokemon (Except.ok [{ name := "bulbasaur", url := "" }])
      (fun _ => inputEncounterFail) [] = [] :=
  ⟨rfl, rfl, rfl⟩

/-- C3 amended: failure policy of the population pipeline.  A listing failure
yields the empty collection; for an entity whose detail and encounter fetches
succeed, a species failure degrades the record to `specie = none` and an
evolution-chain failure to empty `evolution_data`, the entity still being
produced; an encounter failure drops that one entity (the detail-stage error
propagates), while the rest of the batch is still collected. -/
theorem population_failure_policy (data_dir : List String) :
    (∀ err oracle, fetch_all_pokemon (Except.error err) oracle data_dir = []) ∧
    (∀ inp p enc serr, inp.detail = Except.ok p → inp.encounters = Except.ok enc →
      inp.species = Except.error serr →
      ∃ q, fetch_pokemon_details inp data_dir = Except.ok q ∧ q.specie = none ∧
        q.pokemon.id = p.id ∧ q.pokemon.name = p.name) ∧
    (∀ inp p enc sp eerr, inp.detail = Except.ok p → inp.encounters = Except.ok enc →
      inp.species = Except.ok sp → inp.evolution = Except.error eerr →
      ∃ q sq, fetch_pokemon_details inp data_dir = Except.ok q ∧ q.specie = some sq ∧
        sq.evolution_data = []) ∧
    (∀ inp p eerr, inp.detail = Except.ok p → inp.encounters = Except.error eerr →
      fetch_pokemon_details inp data_dir = Except.error eerr) ∧
    (∀ e1 e2 oracle q,
      (∃ msg, fetch_pokemon_details (oracle e1.name) data_dir = Except.error msg) →
      fetch_pokemon_details (oracle e2.name) data_dir = Except.ok q →
      fetch_all_pokemon (Except.ok [e1, e2]) oracle data_dir = [(q.pokemon.id, q)]) := by
  refine ⟨?_, ?_, ?_, ?_, ?_⟩
  · intro err oracle
    rfl
  · intro inp p enc serr hd he hs
    unfold fetch_pokemon_details
    simp only [hd, he, hs]
    exact ⟨_, rfl, rfl, rfl, rfl⟩
  · intro inp p enc sp eerr hd he hs hev
    unfold fetch_pokemon_details
    simp only [hd, he, hs, hev]
    cases hec : sp.evolution_chain with
    | none => exact ⟨_, _, rfl, rfl, rfl⟩
    | some ec =>
      dsimp only
      cases hpe : parse_evolution_chain_id ec.url with
      | error e => exact ⟨_, _, rfl, rfl, rfl⟩
      | ok idv => exact ⟨_, _, rfl, rfl, rfl⟩
  · intro inp p eerr hd he
    unfold fetch_pokemon_details
    simp only [hd, he]
  · intro e1 e2 oracle q hfail hok
    obtain ⟨msg, hfail⟩ := hfail
    simp [fetch_all_pokemon, hfail, hok, Except.toOption, btreeInsert]

/-- C3 witness: a concrete species-fetch failure degrades the record without
dropping the entity, and a failed listing yields the empty collection. -/
theorem population_failure_policy_witness :
    (∃ q, fetch_pokemon_details inputSpeciesFail [] = Except.ok q ∧ q.specie = none ∧
      q.pokemon.id = pokemonA.id ∧ q.pokemon.name = pokemonA.name) ∧
    fetch_all_pokemon (Except.error "listing failed") (fun _ => inputSpeciesFail) [] = [] :=
  ⟨(population_failure_policy []).2.1 inputSpeciesFail pokemonA [] "species down" rfl rfl rfl,
   (population_failure_policy []).1 "listing failed" (fun _ => inputSpeciesFail)⟩

/-- A species record whose evolution-chain reference URL ends in `/0/`. -/
def speciesZeroChain : PokemonSpecies :=
  { evolution_chain := some { url := "https://pokeapi.co/api/v2/evolution-chain/0/" }
    flavor_text_entries := []
    generation := { name := "generation-i", url := "" } }

/-- A pipeline input whose species fetch succeeds with a `/0/` chain URL. -/
def inputZeroChain : FetchPokemonInput :=
  { detail := Except.ok pokemonA
    encounters := Except.ok []
    species := Except.ok speciesZeroChain
    evolution := Except.error "not fetched" }

/-- C8: the evolution-chain id is parsed from the trailing path segment of
the reference URL; `/1/` parses to id 1, `/0/` is rejected, every accepted id
is nonzero, and whenever the parse fails the entity is still produced with
empty evolution data. -/
theorem evolution_chain_id_parsing :
    parse_evolution_chain_id "https://pokeapi.co/api/v2/evolution-chain/1/" = Except.ok 1 ∧
    parse_evolution_chain_id "https://pokeapi.co/api/v2/evolution-chain/0/" =
      Except.error "Invalid evolution chain ID" ∧
    (∀ url id, parse_evolution_chain_id url = Except.ok id → id ≠ 0) ∧
    (∀ inp p enc sp ec e data_dir,
      inp.detail = Except.ok p → inp.encounters = Except.ok enc →
      inp.species = Except.ok sp → sp.evolution_chain = some ec →
      parse_evolution_chain_id ec.url = Except.error e →
      ∃ q sq, fetch_pokemon_details inp data_dir = Except.ok q ∧ q.specie = some sq ∧
        sq.evolution_data = []) := by
  refine ⟨rfl, rfl, ?_, ?_⟩
  · intro url id h
    unfold parse_evolution_chain_id at h
    cases hseg : url_trailing_segment url with
    | none => rw [hseg] at h; exact absurd h (by simp)
    | some seg =>
      rw [hseg] at h
      dsimp only at h
      cases hp : parseI64 seg with
      | none => rw [hp] at h; exact absurd h (by simp)
      | some v =>
        rw [hp] at h
        dsimp only at h
        by_cases hv : v = 0
        · rw [if_pos hv] at h
          exact absurd h (by simp)
        · rw [if_neg hv] at h
          simp only [Except.ok.injEq] at h
          subst h
          exact hv
  · intro inp p enc sp ec e data_dir hd he hs hec hpe
    unfold fetch_pokemon_details
    simp only [hd, he, hs, hec, hpe]
    exact ⟨_, _, rfl, rfl, rfl⟩

/-- C8 witness: the accepted example id is nonzero, and the concrete `/0/`
URL leaves the entity produced with empty evolution data. -/
theorem evolution_chain_id_parsing_witness :
    (1 : Int) ≠ 0 ∧
    (∃ q sq, fetch_pokemon_details inputZeroChain [] = Except.ok q ∧ q.specie = some sq ∧
      sq.evolution_data = []) :=
  ⟨evolution_chain_id_parsing.2.2.1 "https://pokeapi.co/api/v2/evolution-chain/1/" 1 rfl,
   evolution_chain_id_parsing.2.2.2 inputZeroChain pokemonA [] speciesZeroChain
     { url := "https://pokeapi.co/api/v2/evolution-chain/0/" } "Invalid evolution chain ID" []
     rfl rfl rfl rfl rfl⟩

/-- C6: the evolution requirement is computed from only the first detail
record of the edge (an empty detail list yields no requirement), by the first
condition present in the strict order minimum level → item → held item →
minimum happiness → time of day → location → known move → relative physical
stats (`1` ↦ attack>defense, `-1` ↦ defense>attack, `0` ↦ equal); when none
of the conditions is present — including a relative-stats value outside
`{1, -1, 0}` — the requirement is absent. -/
theorem extract_evolution_requirement_priority :
    extract_evolution_requirement [] = none ∧
    (∀ d rest, extract_evolution_requirement (d :: rest) =
      extract_evolution_requirement [d]) ∧
    (∀ d n, d.min_level = some n →
      extract_evolution_requirement [d] = some ("Level " ++ toString n)) ∧
    (∀ d it, d.min_level = none → d.item = some it →
      extract_evolution_requirement [d] = some (capitalize_string it.name)) ∧
    (∀ d hi, d.min_level = none → d.item = none → d.held_item = some hi →
      extract_evolution_requirement [d] =
        some ("Holding " ++ capitalize_string hi.name)) ∧
    (∀ d n, d.min_level = none → d.item = none → d.held_item = none →
      d.min_happiness = some n →
      extract_evolution_requirement [d] = some ("Happiness " ++ toString n)) ∧
    (∀ d, d.min_level = none → d.item = none → d.held_item = none →
      d.min_happiness = none → d.time_of_day ≠ "" →
      extract_evolution_requirement [d] =
        some ("During " ++ capitalize_string d.time_of_day)) ∧
    (∀ d loc, d.min_level = none → d.item = none → d.held_item = none →
      d.min_happiness = none → d.time_of_day = "" → d.location = some loc →
      extract_evolution_requirement [d] = some ("At " ++ capitalize_string loc.name)) ∧
    (∀ d mv, d.min_level = none → d.item = none → d.held_item = none →
      d.min_happiness = none → d.time_of_day = "" → d.location = none →
      d.known_move = some mv →
      extract_evolution_requirement [d] =
        some ("Knowing " ++ capitalize_string mv.name)) ∧
    (∀ d, d.min_level = none → d.item = none → d.held_item = none →
      d.min_happiness = none → d.time_of_day = "" → d.location = none →
      d.known_move = none → d.relative_physical_stats = some 1 →
      extract_evolution_requirement [d] = some "Attack > Defense") ∧
    (∀ d, d.min_level = none → d.item = none → d.held_item = none →
      d.min_happiness = none → d.time_of_day = "" → d.location = none →
      d.known_move = none → d.relative_physical_stats = some (-1) →
      extract_evolution_requirement [d] = some "Defense > Attack") ∧
    (∀ d, d.min_level = none → d.item = none → d.held_item = none →
      d.min_happiness = none → d.time_of_day = "" → d.location = none →
      d.known_move = none → d.relative_physical_stats = some 0 →
      extract_evolution_requirement [d] = some "Attack = Defense") ∧
    (∀ d, d.min_level = none → d.item = none → d.held_item = none →
      d.min_happiness = none → d.time_of_day = "" → d.location = none →
      d.known_move = none → d.relative_physical_stats = none →
      extract_evolution_requirement [d] = none) ∧
    (∀ d, d.min_level = none → d.item = none → d.held_item = none →
      d.min_happiness = none → d.time_of_day = "" → d.location = none →
      d.known_move = none → d.relative_physical_stats = some 2 →
      extract_evolution_requirement [d] = none) := by
  refine ⟨rfl, fun d rest => rfl, ?_, ?_, ?_, ?_, ?_, ?_, ?_, ?_, ?_, ?_, ?_, ?_⟩
  · intro d n h1
    simp [extract_evolution_requirement, h1]
  · intro d it h1 h2
    simp [extract_evolution_requirement, h1, h2]
  · intro d hi h1 h2 h3
    simp [extract_evolution_requirement, h1, h2, h3]
  · intro d n h1 h2 h3 h4
    simp [extract_evolution_requirement, h1, h2, h3, h4]
  · intro d h1 h2 h3 h4 h5
    simp [extract_evolution_requirement, h1, h2, h3, h4, h5]
  · intro d loc h1 h2 h3 h4 h5 h6
    simp [extract_evolution_requirement, h1, h2, h3, h4, h5, h6]
  · intro d mv h1 h2 h3 h4 h5 h6 h7
    simp [extract_evolution_requirement, h1, h2, h3, h4, h5, h6, h7]
  · intro d h1 h2 h3 h4 h5 h6 h7 h8
    simp [extract_evolution_requirement, h1, h2, h3, h4, h5, h6, h7, h8]
  · intro d h1 h2 h3 h4 h5 h6 h7 h8
    simp [extract_evolution_requirement, h1, h2, h3, h4, h5, h6, h7, h8]
  · intro d h1 h2 h3 h4 h5 h6 h7 h8
    simp [extract_evolution_requirement, h1, h2, h3, h4, h5, h6, h7, h8]
  · intro d h1 h2 h3 h4 h5 h6 h7 h8
    simp [extract_evolution_requirement, h1, h2, h3, h4, h5, h6, h7, h8]
  · intro d h1 h2 h3 h4 h5 h6 h7 h8
    simp [extract_evolution_requirement, h1, h2, h3, h4, h5, h6, h7, h8]

/-- C6 witness: a detail whose only condition is minimum level 16 yields
`"Level 16"`, and a detail with no condition at all yields no requirement. -/
theorem extract_evolution_requirement_priority_witness :
    extract_evolution_requirement [{ emptyDetail with min_level := some 16 }] =
      some "Level 16" ∧
    extract_evolution_requirement [emptyDetail] = none := by
  obtain ⟨h1, h2, h3, h4, h5, h6, h7, h8, h9, h10, h11, h12, h13, h14⟩ :=
    extract_evolution_requirement_priority
  exact ⟨h3 _ 16 rfl, h13 emptyDetail rfl rfl rfl rfl rfl rfl rfl rfl⟩

theorem set_first_requirement_length (r : Option String) (l : List StarryEvolutionData) :
    (set_first_requirement r l).length = l.length := by
  cases l <;> rfl

theorem set_first_requirement_map_name (r : Option String) (l : List StarryEvolutionData) :
    (set_first_requirement r l).map (fun e => e.name) = l.map (fun e => e.name) := by
  cases l <;> rfl

mutual

theorem extract_chain_length (c : ChainLink) (rp : List String) :
    (extract_evolution_data_from_chain_link c rp).length = c.nodeCount := by
  cases c with
  | mk b sp det ch =>
    simp [extract_evolution_data_from_chain_link, ChainLink.nodeCount,
      extract_children_length ch rp, Nat.add_comm]

theorem extract_children_length (cs : List ChainLink) (rp : List String) :
    (extract_from_children cs rp).length = nodeCountList cs := by
  cases cs with
  | nil => rfl
  | cons c rest =>
    simp [extract_from_children, nodeCountList, set_first_requirement_length,
      extract_chain_length c rp, extract_children_length rest rp]

end

mutual

theorem extract_chain_names (c : ChainLink) (rp : List String) :
    (extract_evolution_data_from_chain_link c rp).map (fun e => e.name) =
      c.dfsSpeciesNames.map capitalize_string := by
  cases c with
  | mk b sp det ch =>
    simp [extract_evolution_data_from_chain_link, ChainLink.dfsSpeciesNames,
      chain_base_node, extract_children_names ch rp]

theorem extract_children_names (cs : List ChainLink) (rp : List String) :
    (extract_from_children cs rp).map (fun e => e.name) =
      (dfsSpeciesNamesList cs).map capitalize_string := by
  cases cs with
  | nil => rfl
  | cons c rest =>
    simp [extract_from_children, dfsSpeciesNamesList, set_first_requirement_map_name,
      extract_chain_names c rp, extract_children_names rest rp]

end

/-- The synthetic 3-level chain: aaa evolves to bbb (level 16) and ccc
(level 36); bbb evolves further to ddd with an empty detail list. -/
def chainD : ChainLink :=
  .mk false ⟨"ddd", "https://pokeapi.co/api/v2/pokemon-species/4/"⟩ [] []

/-- Second-level branch bbb (edge condition: level 16). -/
def chainB : ChainLink :=
  .mk false ⟨"bbb", "https://pokeapi.co/api/v2/pokemon-species/2/"⟩
    [{ emptyDetail with min_level := some 16 }] [chainD]

/-- Second-level branch ccc (edge condition: level 36). -/
def chainC : ChainLink :=
  .mk false ⟨"ccc", "https://pokeapi.co/api/v2/pokemon-species/3/"⟩
    [{ emptyDetail with min_level := some 36 }] []

/-- The base form aaa. -/
def chainA : ChainLink :=
  .mk false ⟨"aaa", "https://pokeapi.co/api/v2/pokemon-species/1/"⟩ [] [chainB, chainC]

/-- C7: flattening an evolution tree yields the base node first with no
requirement, then the flattened evolved subtrees in the source branch order
with the edge requirement written into the first node of each subtree; every
tree node appears exactly once (the length is the node count) and the names
are the depth-first species names in order.  On the synthetic 3-level branch
aaa → \x7bbbb (level 16), ccc (level 36)\x7d → \x7bddd (no condition)\x7d the
result is exactly the four depth-first nodes with bbb carrying `"Level 16"`,
ccc `"Level 36"` and ddd nothing. -/
theorem evolution_flattening_spec :
    (∀ c rp, extract_evolution_data_from_chain_link c rp =
      chain_base_node c.species rp :: extract_from_children c.evolves_to rp) ∧
    (∀ sp rp, (chain_base_node sp rp).needs_to_evolve = none) ∧
    (∀ cs rp, extract_from_children cs rp =
      (cs.map (fun c => set_first_requirement
          (extract_evolution_requirement c.evolution_details)
          (extract_evolution_data_from_chain_link c rp))).flatten) ∧
    (∀ c rp, (extract_evolution_data_from_chain_link c rp).length = c.nodeCount) ∧
    (∀ c rp, (extract_evolution_data_from_chain_link c rp).map (fun e => e.name) =
      c.dfsSpeciesNames.map capitalize_string) ∧
    extract_evolution_data_from_chain_link chainA ["res"] =
      [{ id := 1, name := "Aaa", sprite_path := some "res/aaa/aaa_front.png",
         needs_to_evolve := none },
       { id := 2, name := "Bbb", sprite_path := some "res/bbb/bbb_front.png",
         needs_to_evolve := some "Level 16" },
       { id := 4, name := "Ddd", sprite_path := some "res/ddd/ddd_front.png",
         needs_to_evolve := none },
       { id := 3, name := "Ccc", sprite_path := some "res/ccc/ccc_front.png",
         needs_to_evolve := some "Level 36" }] := by
  refine ⟨?_, fun sp rp => rfl, ?_, extract_chain_length, extract_chain_names, ?_⟩
  · intro c rp
    cases c
    rfl
  · intro cs rp
    induction cs with
    | nil => rfl
    | cons c rest ih => simp [extract_from_children, ih]
  · rfl

end StarryDex
